import Mathlib

/-
Verification of the SpuddieBuddyMap coordination layer (data store, filter
pipeline, view switching, map/categorical adapters) against its specification.

The JavaScript source is shallowly embedded: JS strings are Lean `String`s,
JS numbers that hold coordinates are `ℚ` (a failed `parseFloat`, i.e. NaN, is
modelled as `Option.none` before the code replaces it with 0), the mutable
`window.WorkBuddies.data` store is an explicit `Store` value threaded through
the operations, and the `setTimeout`-deferred filter evaluation is modelled by
separating filter issuance (`issueFilter`) from the later execution of the
deferred task (`runPendingFilter`), with `Date.now()` modelled as a `Nat`
timestamp supplied by the caller.
-/

namespace SBM

/-- Whitespace recognised by JS `String.prototype.trim`. -/
def isJsWhitespace (c : Char) : Bool :=
  c = ' ' || c = '\t' || c = '\n' || c = '\r'

/-- Model of JS `trim` on a character list: drop whitespace from both ends. -/
def jsTrimList (cs : List Char) : List Char :=
  ((cs.dropWhile isJsWhitespace).reverse.dropWhile isJsWhitespace).reverse

/-- Model of JS `String.prototype.trim`. -/
def jsTrim (s : String) : String := ⟨jsTrimList s.data⟩

/-- Model of JS `String.prototype.toLowerCase` (per-character lowercasing). -/
def jsToLower (s : String) : String := ⟨s.data.map Char.toLower⟩

/-- Expansion of one character by the basic sanitization fallback in
`utils.sanitizeString` (the chain of `replace` calls for & < > quotes). -/
def sanitizeChar (c : Char) : List Char :=
  if c = '&' then "&amp;".data
  else if c = '<' then "&lt;".data
  else if c = '>' then "&gt;".data
  else if c = Char.ofNat 34 then "&quot;".data
  else if c = Char.ofNat 39 then "&#039;".data
  else [c]

/-- Model of `utils.sanitizeString` (basic fallback branch, which is the
branch implemented in this repository; DOMPurify is an external collaborator).
The chained global `replace` calls are equivalent to a single per-character
expansion because no replacement output contains a character replaced later. -/
def sanitizeString (s : String) : String := ⟨(s.data.map sanitizeChar).flatten⟩

/-- Helper for `splitChar`: accumulate the current field (reversed). -/
def splitCharAux (sep : Char) : List Char → List Char → List String
  | [], acc => [⟨acc.reverse⟩]
  | c :: rest, acc =>
    if c = sep then ⟨acc.reverse⟩ :: splitCharAux sep rest []
    else splitCharAux sep rest (c :: acc)

/-- Model of JS `String.prototype.split` with a one-character separator
(`"".split(sep)` yields `[""]`, matching JS). -/
def splitChar (sep : Char) (s : String) : List String := splitCharAux sep s.data []

/-- Model of JS `String.prototype.includes` via an executable substring test. -/
def containsSub (needle : List Char) : List Char → Bool
  | [] => needle.isEmpty
  | c :: rest => needle.isPrefixOf (c :: rest) || containsSub needle rest

/-- JS `hay.includes(needle)`. -/
def jsIncludes (hay needle : String) : Bool := containsSub needle.data hay.data

/-- One record of the dataset, with the fields the coordination layer reads.
Coordinates are rationals: after loading they are always numbers (a failed
parse is stored as 0, see `jsParseFloatOr0`), so NaN never appears here.
A field whose CSV column is absent defaults to `""` (resp. `0`), matching the
behaviour of reading an absent JS object property in the falsy positions where
the code uses these fields. -/
structure Buddy where
  WorkbuddyName : String
  City : String
  State : String
  Country : String
  latitude : ℚ
  longitude : ℚ
deriving DecidableEq

/-- Default record used with `List.getD`. -/
def defaultBuddy : Buddy :=
  { WorkbuddyName := "", City := "", State := "", Country := "",
    latitude := 0, longitude := 0 }

/-- Accumulate a maximal run of decimal digits: value, digit count, rest. -/
def takeDigitsAux : List Char → Nat → Nat → Nat × Nat × List Char
  | [], v, n => (v, n, [])
  | c :: rest, v, n =>
    if c.isDigit then takeDigitsAux rest (10 * v + (c.toNat - 48)) (n + 1)
    else (v, n, c :: rest)

/-- Model of JS `parseFloat` restricted to the decimal forms that matter here:
optional leading whitespace, optional sign, integer digits, optional fraction.
`none` models NaN (no numeric prefix at all). Exponent notation is not
modelled; no claim depends on it. -/
def jsParseFloat (s : String) : Option ℚ :=
  let cs := s.data.dropWhile isJsWhitespace
  let signSplit : Bool × List Char :=
    match cs with
    | c :: rest =>
      if c = '-' then (true, rest)
      else if c = '+' then (false, rest)
      else (false, cs)
    | [] => (false, [])
  let ipart := takeDigitsAux signSplit.2 0 0
  let fpart : Nat × Nat :=
    match ipart.2.2 with
    | c :: rest =>
      if c = '.' then
        let f := takeDigitsAux rest 0 0
        (f.1, f.2.1)
      else (0, 0)
    | [] => (0, 0)
  if ipart.2.1 + fpart.2 = 0 then none
  else
    let mag : ℚ :=
      if fpart.2 = 0 then (ipart.1 : ℚ)
      else (ipart.1 : ℚ) + (fpart.1 : ℚ) / ((10 : ℚ) ^ fpart.2)
    some (if signSplit.1 then -mag else mag)

/-- The coordinate transform in `loadData` / `parseCSV`:
`parseFloat(value)` with NaN replaced by 0. -/
def jsParseFloatOr0 (s : String) : ℚ := (jsParseFloat s).getD 0

/-- Model of the filter predicate in `utils.filterData` (stateViz.js:1005-1016):
`nameMatch = !nameFilter || (buddy.WorkbuddyName &&
buddy.WorkbuddyName.toLowerCase().includes(nameFilter))` and
`stateMatch = stateFilter === 'all' || (buddy.State && buddy.State === stateFilter)`,
ANDed. `nameFilter` is already lowercased by the caller. -/
def filterPred (nameFilter stateFilter : String) (b : Buddy) : Bool :=
  (decide (nameFilter = "") ||
    (decide (b.WorkbuddyName ≠ "") && jsIncludes (jsToLower b.WorkbuddyName) nameFilter)) &&
  (decide (stateFilter = "all") ||
    (decide (b.State ≠ "") && decide (b.State = stateFilter)))

/-- How `filterData` reads the state filter input:
`document.getElementById('state-filter')?.value || 'all'` — an empty value
falls back to the sentinel `'all'`. -/
def readStateFilter (stateInput : String) : String :=
  if stateInput = "" then "all" else stateInput

/-- The pure evaluation step of one `filterData` run: the criteria read from
the two inputs (name input lowercased, empty state input defaulted to `'all'`)
applied over `raw`. -/
def filterRun (nameInput stateInput : String) (raw : List Buddy) : List Buddy :=
  raw.filter (filterPred (jsToLower nameInput) (readStateFilter stateInput))

/-- The filter criteria exactly as the spec words them (§3 Filter Criteria):
a case-insensitive substring match on the display name (empty = match-all)
AND an exact-match region selector (`'all'` = match-all). Stated over the
already-lowercased name needle, as the engine receives it. -/
def specCriteria (nameFilter stateFilter : String) (b : Buddy) : Prop :=
  (nameFilter = "" ∨ jsIncludes (jsToLower b.WorkbuddyName) nameFilter = true) ∧
  (stateFilter = "all" ∨ b.State = stateFilter)

instance (nameFilter stateFilter : String) (b : Buddy) :
    Decidable (specCriteria nameFilter stateFilter b) := by
  unfold specCriteria; infer_instance

/-- The process-wide data store `window.WorkBuddies.data` as created by
`utils.init`: `raw`, `filtered` and `states` start as `null` (here `none`),
`activeTab` is `'map'`, `isLoading` is false, and `lastFilterApplied` holds a
`Date.now()` timestamp (here an abstract `Nat` clock value). -/
structure Store where
  raw : Option (List Buddy)
  filtered : Option (List Buddy)
  states : Option (List String)
  activeTab : String
  isLoading : Bool
  lastFilterApplied : Nat
deriving DecidableEq

/-- The store as `utils.init` creates it, with `t0` the `Date.now()` value. -/
def initStore (t0 : Nat) : Store :=
  { raw := none, filtered := none, states := none,
    activeTab := "map", isLoading := false, lastFilterApplied := t0 }

/-- Look up the cell of a named column: `rowObj[header]` built by the loader
loop, read back at a fixed key. `none` models an absent property. -/
def getCell (headers cells : List String) (name : String) : Option String :=
  match headers.findIdx? (fun h => h = name) with
  | some i => some (cells.getD i "")
  | none => none

/-- Build one record from the header row and one data row, as the loader loop
does: the columns named exactly `latitude` / `longitude` go through
`parseFloat` with NaN replaced by 0; every other consulted column is kept as
its (already sanitized, trimmed) string. An absent column yields the falsy
defaults `""` / `0`. -/
def buildRow (headers cells : List String) : Buddy :=
  { WorkbuddyName := (getCell headers cells "WorkbuddyName").getD ""
    City := (getCell headers cells "City").getD ""
    State := (getCell headers cells "State").getD ""
    Country := (getCell headers cells "Country").getD ""
    latitude := ((getCell headers cells "latitude").map jsParseFloatOr0).getD 0
    longitude := ((getCell headers cells "longitude").map jsParseFloatOr0).getD 0 }

/-- The row loop of the manual CSV parsing branch of `utils.loadData`
(stateViz.js:888-915): each line is split on commas, cells trimmed and
sanitized; a lone empty cell means an empty row (skipped); a row whose column
count differs from the header count is skipped; otherwise a record is built. -/
def parseRows (headers : List String) : List String → List Buddy
  | [] => []
  | line :: rest =>
    let rowData := (splitChar ',' line).map (fun c => sanitizeString (jsTrim c))
    if rowData.length = 1 ∧ rowData.getD 0 "x" = "" then parseRows headers rest
    else if rowData.length ≠ headers.length then parseRows headers rest
    else buildRow headers rowData :: parseRows headers rest

/-- The manual CSV parsing branch of `utils.loadData`: trim the text, split
into lines, read the header row (cells trimmed and sanitized), then parse the
data rows. (The PapaParse branch delegates to an external collaborator with
the same per-cell transform; the manual branch is the one fully in-repo.) -/
def parseManual (csvText : String) : List Buddy :=
  match splitChar '\n' (jsTrim csvText) with
  | [] => []
  | headerRow :: dataRows =>
    parseRows ((splitChar ',' headerRow).map (fun h => sanitizeString (jsTrim h))) dataRows

/-- Decimal digits of a natural number, most significant first (the digit
sequence JS produces when interpolating a number into a template literal). -/
def natDigits (n : Nat) : List Nat :=
  if h : n < 10 then [n]
  else
    have : n / 10 < n := Nat.div_lt_self (by omega) (by omega)
    natDigits (n / 10) ++ [n % 10]

/-- The character of one decimal digit. -/
def digitChar (d : Nat) : Char := Char.ofNat (48 + d)

/-- Decimal rendering of a natural number, modelling the JS number-to-string
conversion inside a template literal (integers below 2^53 print in decimal). -/
def natToString (n : Nat) : String := ⟨(natDigits n).map digitChar⟩

/-- The placeholder display name `MysteriousSpuddy${1000 + index}` synthesized
by `utils.loadData` for a record with a falsy name at ordinal `i`. -/
def mysteriousName (i : Nat) : String :=
  "MysteriousSpuddy" ++ natToString (1000 + i)

/-- The `data.forEach((item, index) => ...)` pass of `utils.loadData`
(stateViz.js:919-923), carried out from ordinal `i` upward: a record whose
name is falsy (empty) receives the synthesized placeholder name. -/
def fillNamesFrom (i : Nat) : List Buddy → List Buddy
  | [] => []
  | b :: rest =>
    (if b.WorkbuddyName = "" then { b with WorkbuddyName := mysteriousName i } else b)
      :: fillNamesFrom (i + 1) rest

/-- The whole empty-name pass of `utils.loadData`. -/
def fillNames (data : List Buddy) : List Buddy := fillNamesFrom 0 data

/-- The derived facet computed at load time (stateViz.js:930-931):
`Array.from(new Set(data.map(item => item.State).filter(state => state))).sort()`
— the distinct truthy (non-empty) region values, sorted. -/
def computeStates (data : List Buddy) : List String :=
  (((data.map Buddy.State).filter (fun s => decide (s ≠ ""))).dedup).mergeSort

/-- Model of `utils.loadData`: the fetch outcome is `none` (unreachable /
non-ok response, which makes the code throw before touching the store) or
`some csvText`. On success the text is parsed, empty names are filled, and the
store's `raw`, `filtered` (a copy of `raw`) and `states` are populated; the
parsed array is returned. On failure the store is untouched and the
user-facing error message is raised. -/
def loadData (st : Store) (fetchResult : Option String) :
    Except String (Store × List Buddy) :=
  match fetchResult with
  | none => Except.error "Failed to load data. Please try again later."
  | some csvText =>
    let data := fillNames (parseManual csvText)
    Except.ok
      ({ st with raw := some data, filtered := some data,
                 states := some (computeStates data) }, data)

/-- Outcome of application startup: did the adapters get initialized and a
first render requested, or was a fatal error surfaced instead? -/
inductive InitResult where
  | rendered : InitResult
  | failed : InitResult
deriving DecidableEq

/-- Model of `app.initializeApp`: await `loadData`; any thrown error is caught
and surfaced (`failed`) with no visualization initialized; a loaded-but-empty
array also throws `"No data loaded"` (caught the same way, but only after the
store was already populated); otherwise visualizations are initialized and the
app switches to the `map` tab. -/
def initializeApp (st : Store) (fetchResult : Option String) : Store × InitResult :=
  match loadData st fetchResult with
  | Except.error _ => (st, InitResult.failed)
  | Except.ok (st1, data) =>
    if data.length = 0 then (st1, InitResult.failed)
    else ({ st1 with activeTab := "map" }, InitResult.rendered)

/-- One issued-but-not-yet-executed `filterData` request: the deferred
`setTimeout` closure, which captured the staleness token
(`currentFilterTime`) and the two filter values at issuance time. -/
structure PendingFilter where
  token : Nat
  nameFilter : String
  stateFilter : String
deriving DecidableEq

/-- The synchronous prefix of `utils.filterData` (stateViz.js:979-993), run at
clock value `now`: record `lastFilterApplied = Date.now()`, capture it as this
request's token, and capture the current filter inputs (name lowercased,
empty state selector defaulted to `'all'`). The evaluation itself is deferred. -/
def issueFilter (st : Store) (now : Nat) (nameInput stateInput : String) :
    Store × PendingFilter :=
  ({ st with lastFilterApplied := now },
   { token := now, nameFilter := jsToLower nameInput,
     stateFilter := readStateFilter stateInput })

/-- The deferred body of `utils.filterData` (stateViz.js:994-1033): bail out
if the token no longer equals `lastFilterApplied` (a newer request was issued)
or if `raw` is still null; otherwise replace `filtered` with the predicate
applied over `raw`. -/
def runPendingFilter (st : Store) (p : PendingFilter) : Store :=
  if p.token = st.lastFilterApplied then
    match st.raw with
    | none => st
    | some raw =>
      { st with filtered := some (raw.filter (filterPred p.nameFilter p.stateFilter)) }
  else st

/-- Execute a sequence of deferred filter bodies in the given order. -/
def runAll (st : Store) (ps : List PendingFilter) : Store :=
  ps.foldl runPendingFilter st

/-- Model of `utils.switchTab`: set the active tab and re-render it. -/
def switchTab (st : Store) (tabId : String) : Store :=
  { st with activeTab := tabId }

/-- The mappability test of `mapViz.updateMap` (unnamed/part_000:1503-1511),
negated: a marker is added unless `!buddy.latitude || !buddy.longitude ||
isNaN(...) || (latitude === 0 && longitude === 0)`. In the post-load model
coordinates are genuine rationals (NaN was replaced by 0 at parse time), so
the falsy tests become zero tests. -/
def mappable (b : Buddy) : Bool :=
  !(decide (b.latitude = 0) || decide (b.longitude = 0) ||
    (decide (b.latitude = 0) && decide (b.longitude = 0)))

/-- The set of records `mapViz.updateMap` plots as markers from the current
filtered data. -/
def plottedMarkers (data : List Buddy) : List Buddy := data.filter mappable

/-- The per-region tally of `stateViz.updateStateViz` (stateViz.js:189-195):
every record with a truthy `State` contributes 1 to the count of its
(sanitized) state key; coordinates play no role. -/
def stateCount (data : List Buddy) (s : String) : Nat :=
  (data.filter (fun b => decide (b.State ≠ "") && decide (sanitizeString b.State = s))).length

/-- Result of the categorical bar-click handler: the store as the handler
leaves it, the deferred filter request it issued, and the viewport the map was
fit to (`some pts` = `fitBounds` over exactly the coordinates `pts`; `none` =
no viewport change). -/
structure BarClickResult where
  store : Store
  pending : PendingFilter
  framedPoints : Option (List (ℚ × ℚ))
deriving DecidableEq

/-- Model of the bar `click` handler of `stateViz.updateStateViz`
(stateViz.js:282-329), run at clock value `now` with the name input holding
`nameInput` and the clicked bar carrying `clickedState`. Synchronously, in
order: set the state filter input to the clicked state; call `filterData()`
(which only issues the deferred request); `switchTab('map')`; read the store's
`filtered` field as it stands NOW (the deferred evaluation has not run yet);
keep the records of the clicked state; extend bounds over those with truthy
coordinates; fit the map to the bounds if valid. -/
def barClickFocus (st : Store) (now : Nat) (nameInput clickedState : String) :
    BarClickResult :=
  let issued := issueFilter st now nameInput clickedState
  let st2 := switchTab issued.1 "map"
  let data := st2.filtered.getD []
  let stateBuddies := data.filter (fun b => decide (b.State = clickedState))
  let pts := (stateBuddies.filter
      (fun b => decide (b.latitude ≠ 0) && decide (b.longitude ≠ 0))).map
      (fun b => (b.latitude, b.longitude))
  if stateBuddies.length > 0 ∧ pts ≠ [] then
    { store := st2, pending := issued.2, framedPoints := some pts }
  else
    { store := st2, pending := issued.2, framedPoints := none }

/-! Concrete fixtures used by witnesses and counterexamples. -/

/-- A record named Alice in CA at (1, 1). -/
def aliceB : Buddy :=
  { WorkbuddyName := "Alice", City := "", State := "CA", Country := "",
    latitude := 1, longitude := 1 }

/-- A record named Bob in CA at (5, 5). -/
def bobB : Buddy :=
  { WorkbuddyName := "Bob", City := "", State := "CA", Country := "",
    latitude := 5, longitude := 5 }

/-- A two-record data set. -/
def demoRaw : List Buddy := [aliceB, bobB]

/-- A store holding `demoRaw` with `filtered` a copy of `raw` (the state after
a completed match-all filter). -/
def demoStore : Store :=
  { raw := some demoRaw, filtered := some demoRaw,
    states := some (computeStates demoRaw),
    activeTab := "states", isLoading := false, lastFilterApplied := 0 }

/-! Helper lemmas. -/

/-- Executing a deferred filter body never changes `lastFilterApplied`. -/
theorem runPendingFilter_lastFilterApplied (st : Store) (p : PendingFilter) :
    (runPendingFilter st p).lastFilterApplied = st.lastFilterApplied := by
  unfold runPendingFilter
  split
  · split <;> rfl
  · rfl

/-- Executing a deferred filter body never changes `raw`. -/
theorem runPendingFilter_raw (st : Store) (p : PendingFilter) :
    (runPendingFilter st p).raw = st.raw := by
  unfold runPendingFilter
  split
  · split <;> rfl
  · rfl

/-- Executing a deferred filter body never changes `states`. -/
theorem runPendingFilter_states (st : Store) (p : PendingFilter) :
    (runPendingFilter st p).states = st.states := by
  unfold runPendingFilter
  split
  · split <;> rfl
  · rfl

/-- A deferred filter body whose token is stale is a no-op on the store. -/
theorem runPendingFilter_stale (st : Store) (p : PendingFilter)
    (h : p.token ≠ st.lastFilterApplied) : runPendingFilter st p = st := by
  unfold runPendingFilter
  simp [h]

/-- A deferred filter body whose token is current commits its result. -/
theorem runPendingFilter_current (st : Store) (p : PendingFilter) (raw : List Buddy)
    (ht : p.token = st.lastFilterApplied) (hr : st.raw = some raw) :
    runPendingFilter st p =
      { st with filtered := some (raw.filter (filterPred p.nameFilter p.stateFilter)) } := by
  unfold runPendingFilter
  simp [ht, hr]

/-- A string whose character list is empty is the empty string. -/
theorem eq_empty_of_data_isEmpty {s : String} (h : s.data.isEmpty = true) : s = "" := by
  cases s with
  | mk d =>
    cases d with
    | nil => rfl
    | cons c cs => simp at h

/-- The code's guarded predicate in `filterData` agrees with the spec's
criteria wording whenever the state filter value is non-empty — which
`readStateFilter` guarantees: the truthiness guards on `WorkbuddyName` and
`State` are subsumed by the substring / equality tests themselves. -/
theorem filterPred_iff_spec (nf sf : String) (b : Buddy) (hsf : sf ≠ "") :
    filterPred nf sf b = true ↔ specCriteria nf sf b := by
  unfold filterPred specCriteria
  simp only [Bool.and_eq_true, Bool.or_eq_true, decide_eq_true_eq]
  constructor
  · rintro ⟨h1, h2⟩
    exact ⟨h1.imp id And.right, h2.imp id And.right⟩
  · rintro ⟨h1, h2⟩
    refine ⟨?_, ?_⟩
    · rcases h1 with h | h
      · exact Or.inl h
      · by_cases hname : b.WorkbuddyName = ""
        · left
          rw [hname] at h
          exact eq_empty_of_data_isEmpty h
        · exact Or.inr ⟨hname, h⟩
    · rcases h2 with h | h
      · exact Or.inl h
      · refine Or.inr ⟨?_, h⟩
        rw [h]
        exact hsf

/-- The effective state filter is never the empty string. -/
theorem readStateFilter_ne_empty (si : String) : readStateFilter si ≠ "" := by
  unfold readStateFilter
  split
  · simp
  · assumption

/-! C5. -/

/-- C5: for every loaded record set, the match-all criteria (empty name
filter, region selector `'all'`) leave the filtered view equal to `raw`, by
value and in the same order: every record passes both match-all predicates, so
`Array.prototype.filter` returns the whole array. -/
theorem c5_matchAll_identity : ∀ raw : List Buddy, filterRun "" "all" raw = raw := by
  intro raw
  apply List.filter_eq_self.mpr
  intro b _
  rfl

/-! C3. -/

/-- C3: a completed filter run is a subsequence of `raw` (subset, order
preserved), every record it keeps satisfies the criteria — the
case-insensitive substring test on the display name (empty = match-all) ANDed
with the exact-match region selector (`'all'` = match-all) — and every record
of `raw` it drops violates them. -/
theorem c3_filter_correct : ∀ (nameInput stateInput : String) (raw : List Buddy),
    List.Sublist (filterRun nameInput stateInput raw) raw ∧
    (∀ b ∈ filterRun nameInput stateInput raw,
      specCriteria (jsToLower nameInput) (readStateFilter stateInput) b) ∧
    (∀ b ∈ raw, b ∉ filterRun nameInput stateInput raw →
      ¬ specCriteria (jsToLower nameInput) (readStateFilter stateInput) b) := by
  intro n si raw
  refine ⟨List.filter_sublist _, ?_, ?_⟩
  · intro b hb
    exact (filterPred_iff_spec _ _ _ (readStateFilter_ne_empty si)).mp
      (List.mem_filter.mp hb).2
  · intro b hb hnb hspec
    exact hnb (List.mem_filter.mpr
      ⟨hb, (filterPred_iff_spec _ _ _ (readStateFilter_ne_empty si)).mpr hspec⟩)

/-- Witness for C3 at a concrete input: filtering `demoRaw` by name text
`"LI"` keeps Alice (who satisfies the criteria) and drops Bob (who violates
them). -/
theorem c3_witness :
    specCriteria (jsToLower "LI") (readStateFilter "") aliceB ∧
    ¬ specCriteria (jsToLower "LI") (readStateFilter "") bobB :=
  ⟨(c3_filter_correct "LI" "" demoRaw).2.1 aliceB (by decide),
   (c3_filter_correct "LI" "" demoRaw).2.2 bobB (by decide) (by decide)⟩

/-! C7. -/

/-- C7: after a load, `states` is exactly the sorted set of distinct,
non-empty region values of `raw` (sorted, duplicate-free, containing a string
iff it is a non-empty `State` value of some record); it is recomputed by the
load (the only mutation path of `raw`) and left untouched by filter issuance
and by the deferred filter body. -/
theorem c7_categories : ∀ data : List Buddy,
    (computeStates data).Sorted (· ≤ ·) ∧
    (computeStates data).Nodup ∧
    (∀ s, s ∈ computeStates data ↔ s ≠ "" ∧ s ∈ data.map Buddy.State) ∧
    (∀ (st : Store) (p : PendingFilter), (runPendingFilter st p).states = st.states) ∧
    (∀ (st : Store) (now : Nat) (n si : String),
      (issueFilter st now n si).1.states = st.states) ∧
    (∀ (st st1 : Store) (csv : String) (d : List Buddy),
      loadData st (some csv) = Except.ok (st1, d) →
        st1.raw = some d ∧ st1.filtered = some d ∧
        st1.states = some (computeStates d)) := by
  intro data
  refine ⟨List.sorted_mergeSort' _, ?_, ?_, runPendingFilter_states, fun _ _ _ _ => rfl, ?_⟩
  · exact (List.mergeSort_perm _ _).nodup_iff.mpr (List.nodup_dedup _)
  · intro s
    rw [computeStates, (List.mergeSort_perm _ _).mem_iff, List.mem_dedup, List.mem_filter]
    simp only [decide_eq_true_eq]
    exact and_comm
  · intro st st1 csv d h
    unfold loadData at h
    simp only [Except.ok.injEq, Prod.mk.injEq] at h
    obtain ⟨h1, h2⟩ := h
    subst h2
    subst h1
    exact ⟨rfl, rfl, rfl⟩

/-- Witness for C7 at a concrete input: loading a two-state CSV produces the
sorted distinct state list, and a subsequent filter operation leaves it
unchanged. -/
theorem c7_witness :
    ((initStore 0).raw = none) ∧
    (∀ st1 d, loadData (initStore 0) (some "WorkbuddyName,State\nCara,NY\nAl,CA\nBo,NY") =
        Except.ok (st1, d) → st1.states = some (computeStates d)) ∧
    "NY" ∈ computeStates (parseManual "WorkbuddyName,State\nCara,NY\nAl,CA\nBo,NY") :=
  ⟨rfl,
   fun st1 d h => ((c7_categories []).2.2.2.2.2 (initStore 0) st1 _ d h).2.2,
   ((c7_categories (parseManual "WorkbuddyName,State\nCara,NY\nAl,CA\nBo,NY")).2.2.1 "NY").mpr
     (by decide)⟩

/-! C4. -/

/-- C4 as stated is refuted: the staleness token is `Date.now()`, not an
incremented counter, so two distinct filter issuances (here with different
name criteria) that happen within the same clock millisecond carry equal
tokens — and the superseded first request's token still equals the store's
current `lastFilterApplied`. -/
theorem c4_counterexample :
    (issueFilter demoStore 5 "bob" "").2 ≠
      (issueFilter (issueFilter demoStore 5 "bob" "").1 5 "alice" "").2 ∧
    (issueFilter demoStore 5 "bob" "").2.token =
      (issueFilter (issueFilter demoStore 5 "bob" "").1 5 "alice" "").2.token ∧
    (issueFilter demoStore 5 "bob" "").2.token =
      (issueFilter (issueFilter demoStore 5 "bob" "").1 5 "alice" "").1.lastFilterApplied := by
  refine ⟨?_, rfl, rfl⟩
  intro h
  simp [issueFilter, jsToLower] at h

/-- C4 amended: the token a filter issuance carries is the `Date.now()`
timestamp read at issuance (not at completion), so across two issuances the
store's `lastFilterApplied` is non-decreasing whenever the clock is, and two
issuances carry distinct tokens — with the superseded one's token differing
from the current generation — exactly when their clock readings differ (two
issuances within the same millisecond carry equal tokens). -/
theorem c4_amended : ∀ (st0 : Store) (t1 t2 : Nat) (n1 s1 n2 s2 : String),
    (issueFilter st0 t1 n1 s1).2.token = t1 ∧
    (issueFilter (issueFilter st0 t1 n1 s1).1 t2 n2 s2).2.token = t2 ∧
    (issueFilter st0 t1 n1 s1).1.lastFilterApplied = t1 ∧
    (issueFilter (issueFilter st0 t1 n1 s1).1 t2 n2 s2).1.lastFilterApplied = t2 ∧
    (t1 ≤ t2 →
      (issueFilter st0 t1 n1 s1).1.lastFilterApplied ≤
        (issueFilter (issueFilter st0 t1 n1 s1).1 t2 n2 s2).1.lastFilterApplied) ∧
    (t1 ≠ t2 →
      (issueFilter st0 t1 n1 s1).2.token ≠
          (issueFilter (issueFilter st0 t1 n1 s1).1 t2 n2 s2).2.token ∧
        (issueFilter st0 t1 n1 s1).2.token ≠
          (issueFilter (issueFilter st0 t1 n1 s1).1 t2 n2 s2).1.lastFilterApplied) := by
  intro st0 t1 t2 n1 s1 n2 s2
  exact ⟨rfl, rfl, rfl, rfl, fun h => h, fun h => ⟨h, h⟩⟩

/-- Witness for C4 amended at concrete clock values 1 and 2. -/
theorem c4_witness :
    (1 ≤ 2 →
      (issueFilter demoStore 1 "bob" "").1.lastFilterApplied ≤
        (issueFilter (issueFilter demoStore 1 "bob" "").1 2 "alice" "").1.lastFilterApplied) ∧
    ((1 : Nat) ≠ 2 →
      (issueFilter demoStore 1 "bob" "").2.token ≠
          (issueFilter (issueFilter demoStore 1 "bob" "").1 2 "alice" "").2.token ∧
        (issueFilter demoStore 1 "bob" "").2.token ≠
          (issueFilter (issueFilter demoStore 1 "bob" "").1 2 "alice" "").1.lastFilterApplied) :=
  ⟨(c4_amended demoStore 1 2 "bob" "" "alice" "").2.2.2.2.1,
   (c4_amended demoStore 1 2 "bob" "" "alice" "").2.2.2.2.2⟩

/-! C1. -/

/-- Core staleness argument: once a request `p2` with the current token has
been issued, running any interleaving of the deferred bodies of a stale `p1`
(token differing from the current generation) and of `p2` keeps `filtered` at
either its pre-existing value or `p2`'s result — never anything else — and
ends at `p2`'s result as soon as `p2`'s body has run, while `lastFilterApplied`
and `raw` stay fixed. -/
theorem runAll_race_core (p1 p2 : PendingFilter) (t2 : Nat) (raw : List Buddy)
    (hp1 : p1.token ≠ t2) (hp2 : p2.token = t2) :
    ∀ (order : List PendingFilter), (∀ p ∈ order, p = p1 ∨ p = p2) →
    ∀ st : Store, st.lastFilterApplied = t2 → st.raw = some raw →
      ((runAll st order).filtered = st.filtered ∨
        (runAll st order).filtered =
          some (raw.filter (filterPred p2.nameFilter p2.stateFilter))) ∧
      (p2 ∈ order →
        (runAll st order).filtered =
          some (raw.filter (filterPred p2.nameFilter p2.stateFilter))) ∧
      (runAll st order).lastFilterApplied = t2 ∧
      (runAll st order).raw = some raw := by
  intro order
  induction order with
  | nil =>
    intro _ st hlast hraw
    exact ⟨Or.inl rfl, by simp, hlast, hraw⟩
  | cons p rest ih =>
    intro helems st hlast hraw
    have hp : p = p1 ∨ p = p2 := helems p (List.mem_cons_self p rest)
    have hrest : ∀ q ∈ rest, q = p1 ∨ q = p2 :=
      fun q hq => helems q (List.mem_cons_of_mem p hq)
    rcases hp with hp | hp
    · subst hp
      have hskip : runPendingFilter st p = st :=
        runPendingFilter_stale st p (by rw [hlast]; exact hp1)
      have hfold : runAll st (p :: rest) = runAll st rest := by
        unfold runAll
        rw [List.foldl_cons, hskip]
      rw [hfold]
      have ihr := ih hrest st hlast hraw
      refine ⟨ihr.1, ?_, ihr.2.2⟩
      intro hmem
      rcases List.mem_cons.mp hmem with hc | hc
      · exfalso
        exact hp1 (by rw [← hc, hp2])
      · exact ihr.2.1 hc
    · subst hp
      have hcommit : runPendingFilter st p =
          { st with filtered := some (raw.filter (filterPred p.nameFilter p.stateFilter)) } :=
        runPendingFilter_current st p raw (by rw [hlast]; exact hp2) hraw
      have hfold : runAll st (p :: rest) =
          runAll { st with filtered := some (raw.filter (filterPred p.nameFilter p.stateFilter)) } rest := by
        unfold runAll
        rw [List.foldl_cons, hcommit]
      rw [hfold]
      have ihr := ih hrest
        { st with filtered := some (raw.filter (filterPred p.nameFilter p.stateFilter)) }
        hlast hraw
      rcases ihr.1 with hsame | hres
      · exact ⟨Or.inr hsame, fun _ => hsame, ihr.2.2⟩
      · exact ⟨Or.inr hres, fun _ => hres, ihr.2.2⟩

/-- C1 amended: when the second request is issued at a strictly different
`Date.now()` reading than the first (so their tokens differ), then whatever
order and multiplicity the two deferred evaluations complete in after the
second issuance, `filtered` only ever holds its pre-existing value or f2's
result; it equals f2's result once f2's body has run; and executing f1's
deferred body at any such moment is a complete no-op on the store. As stated
— for arbitrary issuance moments — the claim fails; see `c1_counterexample`. -/
theorem c1_amended (st0 : Store) (raw : List Buddy) (t1 t2 : Nat) (n1 s1 n2 s2 : String)
    (hraw : st0.raw = some raw) (hne : t1 ≠ t2)
    (order : List PendingFilter)
    (horder : ∀ p ∈ order, p = (issueFilter st0 t1 n1 s1).2 ∨
      p = (issueFilter (issueFilter st0 t1 n1 s1).1 t2 n2 s2).2) :
    ((runAll (issueFilter (issueFilter st0 t1 n1 s1).1 t2 n2 s2).1 order).filtered =
        (issueFilter (issueFilter st0 t1 n1 s1).1 t2 n2 s2).1.filtered ∨
      (runAll (issueFilter (issueFilter st0 t1 n1 s1).1 t2 n2 s2).1 order).filtered =
        some (raw.filter (filterPred (jsToLower n2) (readStateFilter s2)))) ∧
    ((issueFilter (issueFilter st0 t1 n1 s1).1 t2 n2 s2).2 ∈ order →
      (runAll (issueFilter (issueFilter st0 t1 n1 s1).1 t2 n2 s2).1 order).filtered =
        some (raw.filter (filterPred (jsToLower n2) (readStateFilter s2)))) ∧
    runPendingFilter (runAll (issueFilter (issueFilter st0 t1 n1 s1).1 t2 n2 s2).1 order)
        (issueFilter st0 t1 n1 s1).2 =
      runAll (issueFilter (issueFilter st0 t1 n1 s1).1 t2 n2 s2).1 order := by
  have hcore := runAll_race_core (issueFilter st0 t1 n1 s1).2
    (issueFilter (issueFilter st0 t1 n1 s1).1 t2 n2 s2).2 t2 raw hne rfl
    order horder
    (issueFilter (issueFilter st0 t1 n1 s1).1 t2 n2 s2).1 rfl hraw
  exact ⟨hcore.1, hcore.2.1, runPendingFilter_stale _ _ (by rw [hcore.2.2.1]; exact hne)⟩

/-- Witness for C1 amended: issuances at clock values 1 and 2 on the demo
store, with the deferred bodies completing out of order (f2's first, then
f1's); `filtered` ends at f2's result, the name-`"alice"` filter. -/
theorem c1_witness :
    ((runAll (issueFilter (issueFilter demoStore 1 "bob" "").1 2 "alice" "").1
        [(issueFilter (issueFilter demoStore 1 "bob" "").1 2 "alice" "").2,
         (issueFilter demoStore 1 "bob" "").2]).filtered =
      (issueFilter (issueFilter demoStore 1 "bob" "").1 2 "alice" "").1.filtered ∨
      (runAll (issueFilter (issueFilter demoStore 1 "bob" "").1 2 "alice" "").1
        [(issueFilter (issueFilter demoStore 1 "bob" "").1 2 "alice" "").2,
         (issueFilter demoStore 1 "bob" "").2]).filtered =
        some (demoRaw.filter (filterPred (jsToLower "alice") (readStateFilter "")))) ∧
    ((issueFilter (issueFilter demoStore 1 "bob" "").1 2 "alice" "").2 ∈
        [(issueFilter (issueFilter demoStore 1 "bob" "").1 2 "alice" "").2,
         (issueFilter demoStore 1 "bob" "").2] →
      (runAll (issueFilter (issueFilter demoStore 1 "bob" "").1 2 "alice" "").1
        [(issueFilter (issueFilter demoStore 1 "bob" "").1 2 "alice" "").2,
         (issueFilter demoStore 1 "bob" "").2]).filtered =
        some (demoRaw.filter (filterPred (jsToLower "alice") (readStateFilter "")))) :=
  ⟨(c1_amended demoStore demoRaw 1 2 "bob" "" "alice" "" rfl (by decide) _
      (by intro p hp; rcases List.mem_cons.mp hp with h | h
          · exact Or.inr h
          · exact Or.inl (by simpa using h))).1,
   (c1_amended demoStore demoRaw 1 2 "bob" "" "alice" "" rfl (by decide) _
      (by intro p hp; rcases List.mem_cons.mp hp with h | h
          · exact Or.inr h
          · exact Or.inl (by simpa using h))).2.1⟩

/-- C1 as stated is refuted: with both requests issued within the same
millisecond (equal `Date.now()` tokens, which "strictly after" does not rule
out), the first request's deferred body passes the staleness check after the
second is issued and commits the name-`"bob"` result — f1's result is visible
in `filtered` after f2 was issued, and it differs from f2's name-`"alice"`
result. -/
theorem c1_counterexample :
    (runPendingFilter (issueFilter (issueFilter demoStore 5 "bob" "").1 5 "alice" "").1
        (issueFilter demoStore 5 "bob" "").2).filtered = some [bobB] ∧
    (runPendingFilter (issueFilter (issueFilter demoStore 5 "bob" "").1 5 "alice" "").1
        (issueFilter (issueFilter demoStore 5 "bob" "").1 5 "alice" "").2).filtered =
      some [aliceB] ∧
    some [bobB] ≠ (some [aliceB] : Option (List Buddy)) := by
  refine ⟨?_, ?_, by decide⟩ <;> decide

/-! C2. -/

/-- The store as the bar-click handler leaves it: filter issued (so
`lastFilterApplied` updated) and active tab switched to the map — `filtered`
untouched, because the handler never awaits the deferred evaluation. -/
theorem barClickFocus_store (st : Store) (now : Nat) (n c : String) :
    (barClickFocus st now n c).store =
      { st with lastFilterApplied := now, activeTab := "map" } := by
  unfold barClickFocus switchTab issueFilter
  dsimp only
  split <;> rfl

/-- The deferred filter request the bar-click handler issues. -/
theorem barClickFocus_pending (st : Store) (now : Nat) (n c : String) :
    (barClickFocus st now n c).pending =
      { token := now, nameFilter := jsToLower n, stateFilter := readStateFilter c } := by
  unfold barClickFocus switchTab issueFilter
  dsimp only
  split <;> rfl

/-- The viewport the bar-click handler fits: either no change, or the bounds
over the truthy-coordinate records of the clicked state drawn from the
store's `filtered` field as it stood before the deferred filter ran. -/
theorem barClickFocus_framed (st : Store) (now : Nat) (n c : String) :
    (barClickFocus st now n c).framedPoints = none ∨
    (barClickFocus st now n c).framedPoints =
      some ((((st.filtered.getD []).filter (fun b => decide (b.State = c))).filter
          (fun b => decide (b.latitude ≠ 0) && decide (b.longitude ≠ 0))).map
          (fun b => (b.latitude, b.longitude))) := by
  unfold barClickFocus switchTab issueFilter
  dsimp only
  split
  · exact Or.inr rfl
  · exact Or.inl rfl

/-- C2 amended: on a categorical bar click the handler sets the region filter
and issues the filter request, but does not await it — it switches to the map
and computes the viewport synchronously from the store's pre-commit `filtered`
value (restricted to records of the clicked state with truthy coordinates),
with no re-check of the staleness token before fitting the bounds. The claim's
await-then-frame-from-post-filter-data ordering does not hold; see
`c2_counterexample`. -/
theorem c2_amended (st : Store) (fl : List Buddy) (now : Nat) (nameInput clickedState : String)
    (h : st.filtered = some fl) :
    (barClickFocus st now nameInput clickedState).store.activeTab = "map" ∧
    (barClickFocus st now nameInput clickedState).store.filtered = some fl ∧
    (barClickFocus st now nameInput clickedState).store.raw = st.raw ∧
    (barClickFocus st now nameInput clickedState).store.lastFilterApplied = now ∧
    (barClickFocus st now nameInput clickedState).pending =
      { token := now, nameFilter := jsToLower nameInput,
        stateFilter := readStateFilter clickedState } ∧
    (∀ q ∈ (barClickFocus st now nameInput clickedState).framedPoints.getD [],
      ∃ b, b ∈ fl ∧ b.State = clickedState ∧ b.latitude = q.1 ∧ b.longitude = q.2 ∧
        b.latitude ≠ 0 ∧ b.longitude ≠ 0) := by
  refine ⟨by rw [barClickFocus_store], by rw [barClickFocus_store]; exact h,
    by rw [barClickFocus_store], by rw [barClickFocus_store],
    barClickFocus_pending st now nameInput clickedState, ?_⟩
  intro q hq
  rcases barClickFocus_framed st now nameInput clickedState with hf | hf
  · rw [hf] at hq
    simp at hq
  · rw [hf] at hq
    simp only [Option.getD_some, List.mem_map, List.mem_filter, h, Option.getD_some,
      Bool.and_eq_true, decide_eq_true_eq] at hq
    obtain ⟨b, ⟨⟨hbf, hbs⟩, hlat, hlng⟩, hbq⟩ := hq
    exact ⟨b, hbf, hbs, by rw [← hbq], by rw [← hbq], hlat, hlng⟩

/-- Witness for C2 amended on the demo store: every point the handler frames
comes from a pre-commit filtered record of the clicked state with nonzero
coordinates. -/
theorem c2_witness :
    (barClickFocus demoStore 7 "bo" "CA").store.activeTab = "map" ∧
    (barClickFocus demoStore 7 "bo" "CA").store.filtered = some demoRaw ∧
    ∃ b, b ∈ demoRaw ∧ b.State = "CA" ∧ b.latitude = (1 : ℚ) ∧ b.longitude = (1 : ℚ) ∧
      b.latitude ≠ 0 ∧ b.longitude ≠ 0 :=
  ⟨(c2_amended demoStore demoRaw 7 "bo" "CA" rfl).1,
   (c2_amended demoStore demoRaw 7 "bo" "CA" rfl).2.1,
   (c2_amended demoStore demoRaw 7 "bo" "CA" rfl).2.2.2.2.2 ((1 : ℚ), (1 : ℚ)) (by decide)⟩

/-- C2 as stated is refuted: with the name input holding `"bo"` (not yet
reflected in `filtered`, which still holds both records), clicking the CA bar
frames both Alice's (1,1) and Bob's (5,5) — but the focus's own filter, once
its deferred body commits, leaves only Bob in `filtered`. The viewport was
computed from pre-filter data and framed a record the new filter excludes,
and no staleness re-check skipped the step. -/
theorem c2_counterexample :
    (barClickFocus demoStore 7 "bo" "CA").framedPoints =
      some [((1 : ℚ), (1 : ℚ)), ((5 : ℚ), (5 : ℚ))] ∧
    (runPendingFilter (barClickFocus demoStore 7 "bo" "CA").store
        (barClickFocus demoStore 7 "bo" "CA").pending).filtered = some [bobB] ∧
    ¬ ((1 : ℚ), (1 : ℚ)) ∈ [bobB].map (fun b => (b.latitude, b.longitude)) := by
  refine ⟨by decide, by decide, by decide⟩

/-! C6. -/

/-- A record of NY whose latitude cell holds the genuine number 0. -/
def caraZeroB : Buddy :=
  { WorkbuddyName := "Cara", City := "", State := "NY", Country := "",
    latitude := 0, longitude := 10 }

/-- A CSV whose single record sits at latitude 0, longitude 10. -/
def zeroLatCsv : String := "WorkbuddyName,State,latitude,longitude\nCara,NY,0,10"

/-- C6 amended: the map plots a filtered record iff both its coordinates are
truthy, i.e. nonzero (any record with latitude 0 or longitude 0 is excluded,
even when the other coordinate is nonzero — the `(0,0)` clause of the skip
test is subsumed by the truthiness tests); a record left unplotted is still
counted by the categorical view whenever its region value is non-empty. -/
theorem c6_amended : ∀ (data : List Buddy) (b : Buddy),
    (b ∈ plottedMarkers data ↔ b ∈ data ∧ b.latitude ≠ 0 ∧ b.longitude ≠ 0) ∧
    (b ∈ data → b.State ≠ "" → 0 < stateCount data (sanitizeString b.State)) := by
  intro data b
  constructor
  · have hm : mappable b = true ↔ (b.latitude ≠ 0 ∧ b.longitude ≠ 0) := by
      unfold mappable
      cases hlat : decide (b.latitude = 0) <;> cases hlng : decide (b.longitude = 0) <;>
        simp_all
    rw [plottedMarkers, List.mem_filter, hm]
  · intro hb hs
    apply List.length_pos_of_mem (a := b)
    exact List.mem_filter.mpr ⟨hb, by simp [hs]⟩

/-- Witness for C6 amended: the latitude-0 record is not plotted yet counts
toward NY in the categorical view, while Bob at (5,5) is plotted. -/
theorem c6_witness :
    0 < stateCount [caraZeroB] (sanitizeString caraZeroB.State) ∧
    bobB ∈ plottedMarkers demoRaw :=
  ⟨(c6_amended [caraZeroB] caraZeroB).2 (by decide) (by decide),
   (c6_amended demoRaw bobB).1.mpr ⟨by decide, by decide, by decide⟩⟩

/-- C6 as stated is refuted: the record loaded from `zeroLatCsv` has a
present, numeric coordinate (its latitude cell `"0"` parses to the number 0)
that is not exactly (0,0) — per the claim it should be plotted — yet
`updateMap` skips it because `!buddy.latitude` is true for the falsy value 0;
it is still counted in the categorical view. -/
theorem c6_counterexample :
    jsParseFloat "0" = some 0 ∧
    (parseManual zeroLatCsv).getD 0 defaultBuddy = caraZeroB ∧
    ¬ (caraZeroB.latitude = 0 ∧ caraZeroB.longitude = 0) ∧
    plottedMarkers (parseManual zeroLatCsv) = [] ∧
    0 < stateCount (parseManual zeroLatCsv) (sanitizeString "NY") := by
  refine ⟨by decide, by decide, by decide, by decide, by decide⟩

/-! C8. -/

/-- C8 amended: a failed fetch makes `loadData` throw before touching the
store, so startup reports the error and no visualization renders while the
store keeps its pre-load state; a parse that yields records populates `raw`,
`filtered` and `states`, and startup then renders — but the parse may yield
an *empty* array, in which case startup still reports a fatal error while the
store has already been populated with the empty data (no longer its pre-load
state); see `c8_counterexample`. -/
theorem c8_amended : ∀ (st : Store) (csv : String),
    loadData st none = Except.error "Failed to load data. Please try again later." ∧
    initializeApp st none = (st, InitResult.failed) ∧
    (∀ (st1 : Store) (d : List Buddy), loadData st (some csv) = Except.ok (st1, d) →
      st1.raw = some d ∧ st1.filtered = some d ∧ st1.states = some (computeStates d) ∧
      (d = [] → initializeApp st (some csv) = (st1, InitResult.failed)) ∧
      (d ≠ [] → initializeApp st (some csv) =
        ({ st1 with activeTab := "map" }, InitResult.rendered))) := by
  intro st csv
  refine ⟨rfl, rfl, ?_⟩
  intro st1 d h
  unfold loadData at h
  simp only [Except.ok.injEq, Prod.mk.injEq] at h
  obtain ⟨h1, h2⟩ := h
  subst h2
  subst h1
  refine ⟨rfl, rfl, rfl, ?_, ?_⟩
  · intro hd
    unfold initializeApp loadData
    simp [hd]
  · intro hd
    unfold initializeApp loadData
    simp [List.length_eq_zero, hd]

/-- Witness for C8 amended: a one-record CSV loads, populates the store and
renders. -/
theorem c8_witness :
    initializeApp (initStore 0) (some "WorkbuddyName,State\nAl,CA") =
      ({ initStore 0 with
          raw := some (fillNames (parseManual "WorkbuddyName,State\nAl,CA")),
          filtered := some (fillNames (parseManual "WorkbuddyName,State\nAl,CA")),
          states := some (computeStates (fillNames (parseManual "WorkbuddyName,State\nAl,CA"))),
          activeTab := "map" }, InitResult.rendered) :=
  ((c8_amended (initStore 0) "WorkbuddyName,State\nAl,CA").2.2 _ _ rfl).2.2.2.2 (by decide)

/-- A CSV with a header row and no data rows. -/
def headerOnlyCsv : String := "WorkbuddyName,City,State,Country,latitude,longitude"

/-- C8 as stated is refuted: a header-only CSV makes `loadData` succeed with
an *empty* record array (contradicting "success yields a non-empty array"),
and although startup then surfaces a fatal "No data loaded" error, the store
no longer holds its pre-load state — `raw` was already populated with the
empty array. -/
theorem c8_counterexample :
    (initializeApp (initStore 0) (some headerOnlyCsv)).2 = InitResult.failed ∧
    (initializeApp (initStore 0) (some headerOnlyCsv)).1.raw = some [] ∧
    (initializeApp (initStore 0) (some headerOnlyCsv)).1.raw ≠ (initStore 0).raw := by
  refine ⟨by decide, by decide, by decide⟩

/-! C9. -/

/-- Numeric value of a most-significant-first digit list. -/
def digitsVal (l : List Nat) : Nat := l.foldl (fun a d => 10 * a + d) 0

/-- Appending one digit multiplies the value by ten and adds the digit. -/
theorem digitsVal_append (l : List Nat) (d : Nat) :
    digitsVal (l ++ [d]) = 10 * digitsVal l + d := by
  unfold digitsVal
  rw [List.foldl_append]
  rfl

/-- The digit list of a number evaluates back to the number. -/
theorem digitsVal_natDigits : ∀ n, digitsVal (natDigits n) = n := by
  intro n
  induction n using Nat.strong_induction_on with
  | _ n ih =>
    unfold natDigits
    split
    · simp [digitsVal]
    · rename_i h
      rw [digitsVal_append, ih (n / 10) (Nat.div_lt_self (by omega) (by omega))]
      omega

/-- Every entry of a digit list is below ten. -/
theorem natDigits_lt (n : Nat) : ∀ d ∈ natDigits n, d < 10 := by
  induction n using Nat.strong_induction_on with
  | _ n ih =>
    intro d hd
    unfold natDigits at hd
    split at hd
    · rename_i h
      simp at hd
      omega
    · rename_i h
      rw [List.mem_append] at hd
      rcases hd with hd | hd
      · exact ih (n / 10) (Nat.div_lt_self (by omega) (by omega)) d hd
      · simp at hd
        omega

/-- Decimal digit characters are distinct for distinct digits. -/
theorem digitChar_inj (d1 d2 : Nat) (h1 : d1 < 10) (h2 : d2 < 10)
    (h : digitChar d1 = digitChar d2) : d1 = d2 := by
  interval_cases d1 <;> interval_cases d2 <;> simp_all [digitChar]

/-- Mapping `digitChar` over digit lists is injective. -/
theorem mapDigit_inj : ∀ (l1 l2 : List Nat), (∀ d ∈ l1, d < 10) → (∀ d ∈ l2, d < 10) →
    l1.map digitChar = l2.map digitChar → l1 = l2 := by
  intro l1
  induction l1 with
  | nil =>
    intro l2 _ _ h
    cases l2 with
    | nil => rfl
    | cons b m => simp at h
  | cons a l ih =>
    intro l2 h1 h2 h
    cases l2 with
    | nil => simp at h
    | cons b m =>
      simp only [List.map_cons, List.cons.injEq] at h
      have ha := digitChar_inj a b (h1 a (by simp)) (h2 b (by simp)) h.1
      rw [ha, ih m (fun d hd => h1 d (by simp [hd])) (fun d hd => h2 d (by simp [hd])) h.2]

/-- Decimal rendering of naturals is injective. -/
theorem natToString_inj (a b : Nat) (h : natToString a = natToString b) : a = b := by
  unfold natToString at h
  have hd : (natDigits a).map digitChar = (natDigits b).map digitChar := congrArg String.data h
  have hab := mapDigit_inj _ _ (natDigits_lt a) (natDigits_lt b) hd
  rw [← digitsVal_natDigits a, ← digitsVal_natDigits b, hab]

/-- Synthesized placeholder names are distinct across distinct ordinals. -/
theorem mysteriousName_inj (i j : Nat) (h : mysteriousName i = mysteriousName j) : i = j := by
  unfold mysteriousName at h
  have hd := congrArg String.data h
  rw [String.data_append, String.data_append] at hd
  have hl := List.append_cancel_left hd
  have h2 : natToString (1000 + i) = natToString (1000 + j) := congrArg String.mk hl
  have := natToString_inj _ _ h2
  omega

/-- Characterization of the empty-name pass at any ordinal, for any starting
offset: the record keeps its name unless it was empty, in which case it gets
the placeholder of its absolute ordinal. -/
theorem fillNamesFrom_getD (data : List Buddy) : ∀ (k i : Nat), i < data.length →
    (fillNamesFrom k data).getD i defaultBuddy =
      (if (data.getD i defaultBuddy).WorkbuddyName = "" then
        { data.getD i defaultBuddy with WorkbuddyName := mysteriousName (k + i) }
      else data.getD i defaultBuddy) := by
  induction data with
  | nil =>
    intro k i hi
    simp at hi
  | cons b rest ih =>
    intro k i hi
    cases i with
    | zero => simp [fillNamesFrom]
    | succ m =>
      have hm : m < rest.length := by simpa using hi
      simp only [fillNamesFrom, List.getD_cons_succ]
      rw [ih (k + 1) m hm]
      have hk : k + 1 + m = k + (m + 1) := by omega
      rw [hk]

/-- Characterization of the empty-name pass of `loadData`. -/
theorem fillNames_getD (data : List Buddy) (i : Nat) (hi : i < data.length) :
    (fillNames data).getD i defaultBuddy =
      (if (data.getD i defaultBuddy).WorkbuddyName = "" then
        { data.getD i defaultBuddy with WorkbuddyName := mysteriousName i }
      else data.getD i defaultBuddy) := by
  unfold fillNames
  rw [fillNamesFrom_getD data 0 i hi]
  simp

/-- C9: a record whose name field is falsy at ordinal `i` receives exactly the
placeholder `MysteriousSpuddy${1000+i}` — a function of its ordinal position
alone, hence deterministic across repeated loads of the identical source
(loading is a pure function of the CSV text) — and two such records at
distinct ordinals of the same load receive distinct names. -/
theorem c9_synthesized_names (data : List Buddy) (i j : Nat)
    (hi : i < data.length) (hj : j < data.length) (hij : i ≠ j)
    (hni : (data.getD i defaultBuddy).WorkbuddyName = "")
    (hnj : (data.getD j defaultBuddy).WorkbuddyName = "") :
    ((fillNames data).getD i defaultBuddy).WorkbuddyName = mysteriousName i ∧
    ((fillNames data).getD j defaultBuddy).WorkbuddyName = mysteriousName j ∧
    ((fillNames data).getD i defaultBuddy).WorkbuddyName ≠
      ((fillNames data).getD j defaultBuddy).WorkbuddyName := by
  refine ⟨?_, ?_, ?_⟩
  · rw [fillNames_getD data i hi, if_pos hni]
  · rw [fillNames_getD data j hj, if_pos hnj]
  · rw [fillNames_getD data i hi, if_pos hni, fillNames_getD data j hj, if_pos hnj]
    show mysteriousName i ≠ mysteriousName j
    intro h
    exact hij (mysteriousName_inj i j h)

/-- Witness for C9: a CSV with two empty-name rows yields the placeholders of
ordinals 0 and 1, which differ. -/
theorem c9_witness :
    ((fillNames (parseManual "WorkbuddyName,State\n,CA\n,NY")).getD 0
        defaultBuddy).WorkbuddyName = mysteriousName 0 ∧
    ((fillNames (parseManual "WorkbuddyName,State\n,CA\n,NY")).getD 1
        defaultBuddy).WorkbuddyName = mysteriousName 1 ∧
    ((fillNames (parseManual "WorkbuddyName,State\n,CA\n,NY")).getD 0
        defaultBuddy).WorkbuddyName ≠
      ((fillNames (parseManual "WorkbuddyName,State\n,CA\n,NY")).getD 1
        defaultBuddy).WorkbuddyName :=
  c9_synthesized_names (parseManual "WorkbuddyName,State\n,CA\n,NY") 0 1
    (by decide) (by decide) (by decide) (by decide) (by decide)

/-! C10. -/

/-- Every record produced by the row loop is built by `buildRow` from some
cell row. -/
theorem parseRows_mem : ∀ (headers lines : List String) (b : Buddy),
    b ∈ parseRows headers lines → ∃ cells, b = buildRow headers cells := by
  intro headers lines
  induction lines with
  | nil =>
    intro b hb
    simp [parseRows] at hb
  | cons line rest ih =>
    intro b hb
    unfold parseRows at hb
    dsimp only at hb
    split at hb
    · exact ih b hb
    · split at hb
      · exact ih b hb
      · rcases List.mem_cons.mp hb with h | h
        · exact ⟨_, h⟩
        · exact ih b h

/-- A stored coordinate is either the replacement value 0 or the honest
result of a successful numeric parse. -/
theorem coordField_cases (o : Option String) :
    (o.map jsParseFloatOr0).getD 0 = 0 ∨
      ∃ t, jsParseFloat t = some ((o.map jsParseFloatOr0).getD 0) := by
  cases o with
  | none => exact Or.inl rfl
  | some s =>
    cases hq : jsParseFloat s with
    | none =>
      left
      simp [jsParseFloatOr0, hq]
    | some q =>
      right
      exact ⟨s, by simp [jsParseFloatOr0, hq]⟩

/-- C10: the latitude/longitude of every loaded record is a genuine number —
a coordinate cell that fails numeric parsing (NaN, modelled as a `none`
parse) is stored as 0, never as NaN, and the row is kept; every nonzero
stored coordinate is the honest result of a successful parse. -/
theorem c10_coords_numeric : ∀ (headers cells : List String) (s : String),
    (getCell headers cells "latitude" = some s → jsParseFloat s = none →
      (buildRow headers cells).latitude = 0) ∧
    (getCell headers cells "longitude" = some s → jsParseFloat s = none →
      (buildRow headers cells).longitude = 0) ∧
    (∀ (csv : String) (b : Buddy), b ∈ parseManual csv →
      (b.latitude = 0 ∨ ∃ t, jsParseFloat t = some b.latitude) ∧
      (b.longitude = 0 ∨ ∃ t, jsParseFloat t = some b.longitude)) := by
  intro headers cells s
  refine ⟨?_, ?_, ?_⟩
  · intro h hn
    show ((getCell headers cells "latitude").map jsParseFloatOr0).getD 0 = 0
    rw [h]
    simp [jsParseFloatOr0, hn]
  · intro h hn
    show ((getCell headers cells "longitude").map jsParseFloatOr0).getD 0 = 0
    rw [h]
    simp [jsParseFloatOr0, hn]
  · intro csv b hb
    unfold parseManual at hb
    split at hb
    · simp at hb
    · obtain ⟨cells2, rfl⟩ := parseRows_mem _ _ b hb
      exact ⟨coordField_cases _, coordField_cases _⟩

/-- Witness for C10: the unparsable latitude cell `"abc"` is stored as 0, and
the record built from it is kept by the loader with numeric coordinates. -/
theorem c10_witness :
    (buildRow ["WorkbuddyName", "latitude"] ["Al", "abc"]).latitude = 0 ∧
    (((parseManual "WorkbuddyName,latitude\nAl,abc").getD 0 defaultBuddy).latitude = 0 ∨
      ∃ t, jsParseFloat t =
        some ((parseManual "WorkbuddyName,latitude\nAl,abc").getD 0 defaultBuddy).latitude) :=
  ⟨(c10_coords_numeric ["WorkbuddyName", "latitude"] ["Al", "abc"] "abc").1
      (by decide) (by decide),
   ((c10_coords_numeric [] [] "").2.2 "WorkbuddyName,latitude\nAl,abc" _ (by decide)).1⟩

end SBM
